import Mathlib

/-!
# Alpha Oracle — verification of the signal engine and prediction lifecycle

Shallow embedding of the decision logic of the repository:

* `src/client/nansen_oracle.py` — flow normalizer (`analyze_netflows`),
  trade aggregator (`analyze_dex_trades`), signal merger (`merge_signals`);
* `src/oracle-agent/oracle.py` — prediction creation (`create_prediction_tx`),
  expiry-marking scan (`verify_predictions`), fixed-point encoder (`price_to_u64`);
* `src/oracle-agent/verifier.py` — outcome decision (`verify_prediction`),
  price-verification scan (`process_expired_predictions`).

Python floats are modelled as exact rationals (`ℚ`); Python's `round(x, 2)`
(round half to even) is `round2`, and `int()` (truncation toward zero) is
`pyInt`.  Statuses and directions are the literal strings the source uses.
Wall-clock reads (`time.time()`, `datetime.utcnow()`) are passed in as an
explicit `now`/`current_time` parameter, and the Pyth price lookup
(`get_pyth_price`) as a function `String → Option ℚ`.  For the fixed-point
round-trip property there is additionally `float64`, an IEEE-754 binary64
round-to-nearest-even rounding on `ℚ`, used to evaluate what the Python
float arithmetic actually produces.
-/

/-- Round half to even to the nearest integer, the rounding used by
Python's builtin `round`. -/
def roundHalfEven (q : ℚ) : ℤ :=
  if q - ⌊q⌋ < 1/2 then ⌊q⌋
  else if q - ⌊q⌋ > 1/2 then ⌊q⌋ + 1
  else if 2 ∣ ⌊q⌋ then ⌊q⌋ else ⌊q⌋ + 1

/-- Python's `round(x, 2)`: round half to even at two decimal places. -/
def round2 (q : ℚ) : ℚ := (roundHalfEven (q * 100) : ℚ) / 100

/-- Python's `int()` on a real value: truncation toward zero. -/
def pyInt (q : ℚ) : ℤ := if 0 ≤ q then ⌊q⌋ else -⌊-q⌋

/-- `symbol.upper()`; stated as a plain character map so it evaluates. -/
def pyUpper (s : String) : String := ⟨s.data.map Char.toUpper⟩

/-! ## Flow Normalizer (`analyze_netflows`, nansen_oracle.py lines 108-169) -/

/-- One raw netflow record, with the fields `analyze_netflows` reads
(missing or null numeric fields arrive here as the `0` the source
defaults them to). -/
structure NetflowRecord where
  token_symbol : String
  net_flow_1h_usd : ℚ
  net_flow_24h_usd : ℚ
  net_flow_7d_usd : ℚ
  market_cap_usd : ℚ
  trader_count : ℕ
deriving DecidableEq

/-- A directional signal, with the fields of the emitted dictionaries that
the claims and the merger read (presentation-only fields are omitted). -/
structure FlowSignal where
  symbol : String
  chain : String
  direction : String
  net_flow_usd : ℚ
  confidence : ℚ
  source : String
deriving DecidableEq

/-- The per-record body of the `analyze_netflows` loop: `none` when the
record is skipped (`continue`), `some` when a signal is appended. -/
def analyzeNetflowRecord (chain : String) (r : NetflowRecord) : Option FlowSignal :=
  if r.token_symbol = "" then none
  else
    let primary : ℚ :=
      if r.net_flow_24h_usd ≠ 0 then r.net_flow_24h_usd else r.net_flow_1h_usd
    if primary = 0 then none
    else
      let flow_pct : ℚ :=
        if r.market_cap_usd > 0 then |primary| / r.market_cap_usd * 100 else 0
      if |primary| > 5000 ∨ flow_pct > 1/10 then
        let conf : ℚ := min ((3/10 : ℚ)
          + (if |primary| > 50000 then 2/10 else 0)
          + (if |primary| > 200000 then 2/10 else 0)
          + (if 3 ≤ r.trader_count then 1/10 else 0)
          + (if ((0 < r.net_flow_1h_usd) ↔ (0 < r.net_flow_24h_usd)) ∧
                r.net_flow_1h_usd ≠ 0 then 1/10 else 0)
          + (if ((0 < r.net_flow_7d_usd) ↔ (0 < r.net_flow_24h_usd)) ∧
                r.net_flow_7d_usd ≠ 0 then 1/10 else 0)) 1
        some { symbol := pyUpper r.token_symbol
               chain := chain
               direction := if primary > 0 then "LONG" else "SHORT"
               net_flow_usd := round2 primary
               confidence := round2 conf
               source := "nansen_smart_money_netflow" }
      else none

/-- `analyze_netflows`: per-chain records to signals, sorted by
`abs(net_flow_usd)` descending (stable, as Python's `list.sort`). -/
def analyze_netflows (all_netflows : List (String × List NetflowRecord)) :
    List FlowSignal :=
  List.insertionSort (fun a b => |a.net_flow_usd| > |b.net_flow_usd|)
    (all_netflows.flatMap fun cf => cf.2.filterMap (analyzeNetflowRecord cf.1))

/-! ## Trade Aggregator (`analyze_dex_trades`, nansen_oracle.py lines 172-236) -/

/-- One raw DEX trade with the fields `analyze_dex_trades` reads. -/
structure DexTrade where
  token_bought_symbol : String
  token_sold_symbol : String
  trade_value_usd : ℚ
deriving DecidableEq

/-- One `token_agg` bucket. -/
structure TokenAgg where
  symbol : String
  chain : String
  buys : ℚ
  sells : ℚ
  trades : ℕ
deriving DecidableEq

/-- The stablecoin exclusion set. -/
def stables : List String :=
  ["USDC", "USDT", "DAI", "BUSD", "WETH", "WBTC", "WBNB", "WSOL"]

/-- Replace the first element satisfying `p` (an insertion-ordered map
update, matching mutation of a Python dict entry). -/
def updateFirst (p : α → Bool) (f : α → α) : List α → List α
  | [] => []
  | x :: xs => if p x then f x :: xs else x :: updateFirst p f xs

/-- Add one trade leg (a buy when `isBuy`, else a sell) to the bucket of
`key`, creating the bucket at the end as Python dict insertion does. -/
def bumpAgg (tokenAgg : List (String × TokenAgg)) (key symbol chain : String)
    (isBuy : Bool) (usd : ℚ) : List (String × TokenAgg) :=
  if tokenAgg.any (fun kv => kv.1 == key) then
    updateFirst (fun kv => kv.1 == key)
      (fun kv => (kv.1,
        if isBuy then
          { kv.2 with buys := kv.2.buys + usd, trades := kv.2.trades + 1 }
        else
          { kv.2 with sells := kv.2.sells + usd, trades := kv.2.trades + 1 }))
      tokenAgg
  else
    tokenAgg ++ [(key,
      { symbol := symbol, chain := chain,
        buys := if isBuy then usd else 0,
        sells := if isBuy then 0 else usd,
        trades := 1 })]

/-- The per-trade body of the aggregation loop: skip zero-value trades,
then credit the bought leg and the sold leg to their buckets, skipping
empty symbols and stablecoins. -/
def aggTrade (chain : String) (tokenAgg : List (String × TokenAgg))
    (t : DexTrade) : List (String × TokenAgg) :=
  if t.trade_value_usd = 0 then tokenAgg
  else
    let afterBuy :=
      if t.token_bought_symbol ≠ "" ∧ pyUpper t.token_bought_symbol ∉ stables then
        bumpAgg tokenAgg (pyUpper t.token_bought_symbol ++ "_" ++ chain)
          (pyUpper t.token_bought_symbol) chain true t.trade_value_usd
      else tokenAgg
    if t.token_sold_symbol ≠ "" ∧ pyUpper t.token_sold_symbol ∉ stables then
      bumpAgg afterBuy (pyUpper t.token_sold_symbol ++ "_" ++ chain)
        (pyUpper t.token_sold_symbol) chain false t.trade_value_usd
    else afterBuy

/-- The aggregation phase of `analyze_dex_trades` over all chains. -/
def aggregateDexTrades (all_trades : List (String × List DexTrade)) :
    List (String × TokenAgg) :=
  all_trades.foldl (fun acc ct => ct.2.foldl (aggTrade ct.1) acc) []

/-- The per-bucket emission decision of `analyze_dex_trades`. -/
def dexSignalOfAgg (agg : TokenAgg) : Option FlowSignal :=
  let total := agg.buys + agg.sells
  if total < 5000 then none
  else
    let net := agg.buys - agg.sells
    let buy_ratio : ℚ := if total > 0 then agg.buys / total else 1/2
    if buy_ratio > 6/10 ∨ buy_ratio < 4/10 then
      let confidence0 : ℚ := min (|buy_ratio - 5/10| * 2 + 2/10) 1
      let confidence : ℚ :=
        if 3 ≤ agg.trades then min (confidence0 + 1/10) 1 else confidence0
      some { symbol := agg.symbol
             chain := agg.chain
             direction := if net > 0 then "LONG" else "SHORT"
             net_flow_usd := round2 net
             confidence := round2 confidence
             source := "nansen_smart_money_dex" }
    else none

/-- `analyze_dex_trades`: aggregate, emit per bucket, sort by
`abs(net_flow_usd)` descending. -/
def analyze_dex_trades (all_trades : List (String × List DexTrade)) :
    List FlowSignal :=
  List.insertionSort (fun a b => |a.net_flow_usd| > |b.net_flow_usd|)
    ((aggregateDexTrades all_trades).filterMap fun kv => dexSignalOfAgg kv.2)

/-! ## Signal Merger (`merge_signals`, nansen_oracle.py lines 239-268) -/

/-- One entry of the `merged` dict (`observed_at` omitted as above). -/
structure MergedSignal where
  symbol : String
  chain : String
  direction : String
  confidence : ℚ
  sources : List String
  net_flow_usd : ℚ
deriving DecidableEq

/-- The per-signal body of the merge loop: seed a new entry on first
sight of the symbol, otherwise mutate the existing entry (boost +0.20
capped at 1.0 on direction agreement, penalize −0.30 floored at 0.10 on
conflict, and accumulate `net_flow_usd`). -/
def mergeOne (merged : List MergedSignal) (sig : FlowSignal) : List MergedSignal :=
  if merged.any (fun m => m.symbol == sig.symbol) then
    updateFirst (fun m => m.symbol == sig.symbol)
      (fun m =>
        { m with
          sources := m.sources ++ [sig.source]
          confidence :=
            if m.direction = sig.direction then min (m.confidence + 2/10) 1
            else max (m.confidence - 3/10) (1/10)
          net_flow_usd := m.net_flow_usd + sig.net_flow_usd })
      merged
  else
    merged ++ [{ symbol := sig.symbol
                 chain := sig.chain
                 direction := sig.direction
                 confidence := sig.confidence
                 sources := [sig.source]
                 net_flow_usd := sig.net_flow_usd }]

/-- `merge_signals`: netflow signals first, then DEX signals, then sort
by confidence descending. -/
def merge_signals (netflow_signals dex_signals : List FlowSignal) :
    List MergedSignal :=
  List.insertionSort (fun a b => a.confidence > b.confidence)
    ((netflow_signals ++ dex_signals).foldl mergeOne [])

/-! ## Prediction Ledger (oracle.py) and Price Verifier (verifier.py) -/

/-- One actionable signal as consumed by `create_prediction_tx`
(`take_profit_price` / `stop_loss_price` may be absent). -/
structure ActionableSignal where
  symbol : String
  signal : ℤ
  price : ℚ
  take_profit_price : Option ℚ
  stop_loss_price : Option ℚ
deriving DecidableEq

/-- One ledger record.  `result_price` and `verified_at` are absent keys
until verification (`none`); `created_at`/`expires_at` carry the single
creation-time clock reading, in seconds. -/
structure Prediction where
  asset : String
  direction : String
  entry_price : ℤ
  take_profit : ℤ
  stop_loss : ℤ
  timeframe_hours : ℕ
  created_at : ℚ
  expires_at : ℚ
  status : String
  result_price : Option ℤ
  verified_at : Option ℚ
  local_id : ℕ
deriving DecidableEq

/-- `price_to_u64` (oracle.py lines 54-56): fixed point with 6 implied
decimals, `int(price * 10 ** 6)`. -/
def price_to_u64 (price : ℚ) : ℤ := pyInt (price * 1000000)

/-- `create_prediction_tx` (oracle.py lines 72-109): build the record,
assign `local_id = len(predictions)` and append.  Returns the new record
and the updated ledger. -/
def create_prediction_tx (signal : ActionableSignal) (timeframe_hours : ℕ)
    (now : ℚ) (predictions : List Prediction) : Prediction × List Prediction :=
  let prediction : Prediction :=
    { asset := signal.symbol
      direction := if signal.signal = 1 then "LONG" else "SHORT"
      entry_price := price_to_u64 signal.price
      take_profit := price_to_u64 (signal.take_profit_price.getD (signal.price * (105/100)))
      stop_loss := price_to_u64 (signal.stop_loss_price.getD (signal.price * (95/100)))
      timeframe_hours := timeframe_hours
      created_at := now
      expires_at := now + timeframe_hours * 3600
      status := "active"
      result_price := none
      verified_at := none
      local_id := predictions.length }
  (prediction, predictions ++ [prediction])

/-- `verify_prediction` (verifier.py lines 89-118): decide the outcome of
one prediction against a reference price; stored fixed-point prices are
converted by dividing by 1,000,000.  The docstring also names
`'inconclusive'` as a possible result. -/
def verify_prediction (prediction : Prediction) (current_price : ℚ) : String :=
  let entry : ℚ := (prediction.entry_price : ℚ) / 1000000
  let tp : ℚ := (prediction.take_profit : ℚ) / 1000000
  let sl : ℚ := (prediction.stop_loss : ℚ) / 1000000
  if prediction.direction = "LONG" then
    if current_price ≥ tp then "won"
    else if current_price ≤ sl then "lost"
    else if current_price > entry then "won"
    else "lost"
  else
    if current_price ≤ tp then "won"
    else if current_price ≥ sl then "lost"
    else if current_price < entry then "won"
    else "lost"

/-- Per-record body of `verify_predictions` (oracle.py lines 112-132): an
active prediction whose expiry has passed is marked
`needs_verification`; everything else is left untouched. -/
def verifyPredictionsStep (current_time : ℚ) (pred : Prediction) : Prediction :=
  if pred.status ≠ "active" then pred
  else if current_time ≥ pred.expires_at then
    { pred with status := "needs_verification" }
  else pred

/-- `verify_predictions`: the expiry-marking ledger scan. -/
def verify_predictions (current_time : ℚ) (predictions : List Prediction) :
    List Prediction :=
  predictions.map (verifyPredictionsStep current_time)

/-- Per-record body of `process_expired_predictions` (verifier.py lines
121-158), with the Pyth lookup abstracted as `get_price`: skip
non-active or unexpired records; with no obtainable price mark
`needs_manual_verification`; otherwise store the verifier outcome, the
reference price in micro-units, and the verification time. -/
def processExpiredStep (get_price : String → Option ℚ) (current_time : ℚ)
    (pred : Prediction) : Prediction :=
  if pred.status ≠ "active" then pred
  else if current_time < pred.expires_at then pred
  else
    match get_price pred.asset with
    | none => { pred with status := "needs_manual_verification" }
    | some current_price =>
        { pred with
          status := verify_prediction pred current_price
          result_price := some (pyInt (current_price * 1000000))
          verified_at := some current_time }

/-- `process_expired_predictions`: the price-verification ledger scan. -/
def process_expired_predictions (get_price : String → Option ℚ)
    (current_time : ℚ) (predictions : List Prediction) : List Prediction :=
  predictions.map (processExpiredStep get_price current_time)

/-- One ledger scan invocation: either the expiry-marking scan of
oracle.py or the price-verification scan of verifier.py, at some
invocation time (and, for the latter, price-lookup state). -/
inductive ScanOp where
  | expiry (current_time : ℚ)
  | priceVerify (get_price : String → Option ℚ) (current_time : ℚ)

/-- Run one scan over the ledger. -/
def runScan : ScanOp → List Prediction → List Prediction
  | ScanOp.expiry t, l => verify_predictions t l
  | ScanOp.priceVerify g t, l => process_expired_predictions g t l

/-- Run any sequence of scans over the ledger. -/
def runScans (ops : List ScanOp) (l : List Prediction) : List Prediction :=
  ops.foldl (fun acc op => runScan op acc) l

/-! ## Binary64 model for the fixed-point round trip

The stored prices are Python floats.  `float64` is IEEE-754 binary64
round-to-nearest-even on `ℚ`, valid on the normal range
`2^(-1024) ≤ |q| < 2^1024` (no subnormals or overflow, which the prices
in question never reach). -/

/-- Largest `e` in `[-1024, 1023]` with `2 ^ e ≤ q`, for `q` in the
normal binary64 range, by binary search on the exponent. -/
def qlog2 (q : ℚ) : ℤ :=
  [10, 9, 8, 7, 6, 5, 4, 3, 2, 1, 0].foldl
    (fun e k => if (2:ℚ) ^ (e + (2 ^ k : ℕ)) ≤ q then e + (2 ^ k : ℕ) else e)
    (-1024)

/-- Round a positive rational in the normal range to 53 significant
binary digits, half to even. -/
def float64Pos (q : ℚ) : ℚ :=
  (roundHalfEven (q * 2 ^ (52 - qlog2 q)) : ℚ) * 2 ^ (qlog2 q - 52)

/-- IEEE-754 binary64 rounding (round to nearest, ties to even) of a
rational in the normal range.  Models the value a Python float holds
after an exact-in-ℚ operation is rounded. -/
def float64 (q : ℚ) : ℚ :=
  if q = 0 then 0
  else if 0 < q then float64Pos q
  else -float64Pos (-q)

/-- The decode/encode round trip exactly as the code computes it with
binary64 floats: `verify`-side decode `x / 1_000_000` (verifier.py line
95, a correctly rounded float division), then the encoder
`int(price * 1_000_000)` (oracle.py line 56, a correctly rounded float
multiplication followed by `int` truncation). -/
def roundTripFixedFloat (x : ℤ) : ℤ :=
  pyInt (float64 (float64 ((x : ℚ) / 1000000) * 1000000))

/-! ## Rounding lemmas -/

theorem roundHalfEven_intCast (n : ℤ) : roundHalfEven (n : ℚ) = n := by
  unfold roundHalfEven
  rw [Int.floor_intCast]
  norm_num

theorem round2_eq_self {q : ℚ} (h : ∃ n : ℤ, q * 100 = (n : ℚ)) : round2 q = q := by
  obtain ⟨n, hn⟩ := h
  unfold round2
  rw [hn, roundHalfEven_intCast, ← hn]
  ring

theorem roundHalfEven_nonneg {q : ℚ} (h : 0 ≤ q) : 0 ≤ roundHalfEven q := by
  have hf : (0 : ℤ) ≤ ⌊q⌋ := Int.floor_nonneg.mpr h
  unfold roundHalfEven
  split_ifs <;> omega

theorem roundHalfEven_nonpos {q : ℚ} (h : q ≤ 0) : roundHalfEven q ≤ 0 := by
  have hfq : (⌊q⌋ : ℚ) ≤ q := Int.floor_le q
  have hf : ⌊q⌋ ≤ 0 := by exact_mod_cast le_trans hfq h
  unfold roundHalfEven
  split_ifs with h1 h2 h3
  · exact hf
  · have ha : (1:ℚ)/2 ≤ q - ⌊q⌋ := le_of_not_lt h1
    have hb : (⌊q⌋ : ℚ) < 0 := by linarith
    have : ⌊q⌋ < 0 := by exact_mod_cast hb
    omega
  · exact hf
  · have ha : (1:ℚ)/2 ≤ q - ⌊q⌋ := le_of_not_lt h1
    have hb : (⌊q⌋ : ℚ) < 0 := by linarith
    have : ⌊q⌋ < 0 := by exact_mod_cast hb
    omega

theorem roundHalfEven_pos {q : ℚ} (h : 1 ≤ q) : 0 < roundHalfEven q := by
  have hf : (1 : ℤ) ≤ ⌊q⌋ := by
    have := Int.le_floor.mpr (by exact_mod_cast h : ((1:ℤ) : ℚ) ≤ q)
    simpa using this
  unfold roundHalfEven
  split_ifs <;> omega

theorem roundHalfEven_neg {q : ℚ} (h : q ≤ -1) : roundHalfEven q < 0 := by
  have hfq : (⌊q⌋ : ℚ) ≤ q := Int.floor_le q
  have hf : ⌊q⌋ ≤ -1 := by
    have hb : (⌊q⌋ : ℚ) ≤ -1 := le_trans hfq h
    exact_mod_cast hb
  unfold roundHalfEven
  split_ifs with h1 h2 h3
  · omega
  · have h4 : (1:ℚ)/2 ≤ q - ⌊q⌋ := le_of_not_lt h1
    have h5 : (⌊q⌋ : ℚ) < -1 := by linarith
    have : ⌊q⌋ < -1 := by exact_mod_cast h5
    omega
  · omega
  · have h4 : (1:ℚ)/2 ≤ q - ⌊q⌋ := le_of_not_lt h1
    have h5 : (⌊q⌋ : ℚ) < -1 := by linarith
    have : ⌊q⌋ < -1 := by exact_mod_cast h5
    omega

theorem round2_nonneg {q : ℚ} (h : 0 ≤ q) : 0 ≤ round2 q := by
  unfold round2
  have := roundHalfEven_nonneg (q := q * 100) (by positivity)
  positivity

theorem round2_nonpos {q : ℚ} (h : q ≤ 0) : round2 q ≤ 0 := by
  unfold round2
  have h1 : roundHalfEven (q * 100) ≤ 0 := roundHalfEven_nonpos (by nlinarith)
  have h2 : (roundHalfEven (q * 100) : ℚ) ≤ 0 := by exact_mod_cast h1
  linarith

theorem round2_pos {q : ℚ} (h : 1 ≤ q) : 0 < round2 q := by
  unfold round2
  have h1 : 0 < roundHalfEven (q * 100) := roundHalfEven_pos (by nlinarith)
  have h2 : (0 : ℚ) < (roundHalfEven (q * 100) : ℚ) := by exact_mod_cast h1
  positivity

theorem round2_neg {q : ℚ} (h : q ≤ -1) : round2 q < 0 := by
  unfold round2
  have h1 : roundHalfEven (q * 100) < 0 := roundHalfEven_neg (by nlinarith)
  have h2 : (roundHalfEven (q * 100) : ℚ) < 0 := by exact_mod_cast h1
  have : (0:ℚ) < 100 := by norm_num
  exact div_neg_of_neg_of_pos h2 this

/-! ## Claim C1 — the Price Verifier decision table -/

/-- C1: for every prediction verified against a reference price (stored
prices decoded by dividing the fixed-point integer by 1,000,000): with
direction LONG the outcome is won when current ≥ take-profit, else lost
when current ≤ stop-loss, else won when current > entry, else lost; with
direction SHORT the outcome is won when current ≤ take-profit, else lost
when current ≥ stop-loss, else won when current < entry, else lost. -/
theorem c1_verify_prediction_table (p : Prediction) (c : ℚ) :
    (p.direction = "LONG" →
      verify_prediction p c =
        if c ≥ (p.take_profit : ℚ) / 1000000 then "won"
        else if c ≤ (p.stop_loss : ℚ) / 1000000 then "lost"
        else if c > (p.entry_price : ℚ) / 1000000 then "won"
        else "lost") ∧
    (p.direction = "SHORT" →
      verify_prediction p c =
        if c ≤ (p.take_profit : ℚ) / 1000000 then "won"
        else if c ≥ (p.stop_loss : ℚ) / 1000000 then "lost"
        else if c < (p.entry_price : ℚ) / 1000000 then "won"
        else "lost") := by
  constructor <;> intro h <;> simp [verify_prediction, h]

/-- Witness for C1: scenario 4 (LONG, entry 100, TP 110, SL 90, current
105 → won) and scenario 5 (SHORT, entry 100, TP 90, SL 110, current 112
→ lost) through `c1_verify_prediction_table`. -/
theorem c1_witness :
    verify_prediction
      { asset := "ETH", direction := "LONG", entry_price := 100000000,
        take_profit := 110000000, stop_loss := 90000000, timeframe_hours := 24,
        created_at := 0, expires_at := 86400, status := "active",
        result_price := none, verified_at := none, local_id := 0 } 105 = "won" ∧
    verify_prediction
      { asset := "ETH", direction := "SHORT", entry_price := 100000000,
        take_profit := 90000000, stop_loss := 110000000, timeframe_hours := 24,
        created_at := 0, expires_at := 86400, status := "active",
        result_price := none, verified_at := none, local_id := 1 } 112 = "lost" := by
  constructor
  · rw [(c1_verify_prediction_table _ 105).1 rfl]
    norm_num
  · rw [(c1_verify_prediction_table _ 112).2 rfl]
    norm_num

/-! ## Claim C10 — the decision function is total and two-valued -/

/-- A concrete prediction with a direction string that is neither LONG
nor SHORT, used to witness C10. -/
def predOtherDirection : Prediction :=
  { asset := "DOGE", direction := "HOLD", entry_price := 100000000,
    take_profit := 105000000, stop_loss := 95000000, timeframe_hours := 24,
    created_at := 0, expires_at := 86400, status := "active",
    result_price := none, verified_at := none, local_id := 0 }

/-- C10: for every prediction record (any direction string, any
entry/TP/SL values) and every reference price, `verify_prediction`
returns exactly won or lost — the inconclusive result of its docstring
is unreachable — and any direction other than LONG is handled by the
SHORT branch. -/
theorem c10_verify_prediction_total (p : Prediction) (c : ℚ) :
    (verify_prediction p c = "won" ∨ verify_prediction p c = "lost") ∧
    verify_prediction p c ≠ "inconclusive" ∧
    (p.direction ≠ "LONG" →
      verify_prediction p c = verify_prediction { p with direction := "SHORT" } c) := by
  refine ⟨?_, ?_, ?_⟩
  · simp only [verify_prediction]
    split_ifs <;> simp
  · simp only [verify_prediction]
    split_ifs <;> simp
  · intro h
    simp [verify_prediction, h]

/-- Witness for C10: a direction string "HOLD" is decided exactly as the
SHORT branch decides it. -/
theorem c10_witness :
    verify_prediction predOtherDirection 50 =
      verify_prediction { predOtherDirection with direction := "SHORT" } 50 :=
  (c10_verify_prediction_total predOtherDirection 50).2.2 (by simp [predOtherDirection])

/-! ## Claim C9 — the fixed-point round trip -/

/-- C9: evaluating the decode/encode round trip with the binary64 float
semantics the code actually runs under, at the stored fixed-point value
249 (price 0.000249, representable with exactly 6 decimal places):
`249 / 1_000_000` rounds to the double `0x1.05186db50f40ep-12`,
multiplying by `1_000_000` rounds to `248.99999999999997...`, and `int`
truncation returns 248 — not the original 249 the claim requires.  In
exact rational arithmetic the round trip does return 249
(`pyInt ((249 / 1000000) * 1000000) = 249`); the failure is the float
truncation slip in the encoder. -/
theorem c9_roundtrip_float_counterexample :
    roundTripFixedFloat 249 = 248 ∧ (248 : ℤ) ≠ 249 ∧
    pyInt ((249 / 1000000 : ℚ) * 1000000) = 249 := by
  refine ⟨?_, by decide, by norm_num [pyInt]⟩
  have h1 : float64 ((249:ℚ)/1000000) = 2296619637176839/9223372036854775808 := by
    have hq : qlog2 ((249:ℚ)/1000000) = -12 := by
      norm_num [qlog2, List.foldl_cons, List.foldl_nil]
    rw [float64, if_neg (by norm_num), if_pos (by norm_num), float64Pos, hq]
    norm_num [roundHalfEven]
  have h2 : float64 ((2296619637176839:ℚ)/9223372036854775808 * 1000000) =
      8760908650119167/35184372088832 := by
    have hq : qlog2 ((2296619637176839:ℚ)/9223372036854775808 * 1000000) = 7 := by
      norm_num [qlog2, List.foldl_cons, List.foldl_nil]
    rw [float64, if_neg (by norm_num), if_pos (by norm_num), float64Pos, hq]
    norm_num [roundHalfEven]
  rw [roundTripFixedFloat]
  push_cast
  rw [h1, h2]
  norm_num [pyInt]

/-! ## Claim C6 — prediction creation -/

/-- C6: a prediction created from an actionable signal has status
active, expiry equal to the creation time plus `timeframe_hours * 3600`
seconds, the next unused ledger sequence number as `local_id`, and
TP/SL defaulting to entry ±5% (stored fixed point, 6 implied decimals)
when absent from the signal. -/
theorem c6_create_prediction (s : ActionableSignal) (tf : ℕ) (now : ℚ)
    (ledger : List Prediction)
    (hwf : ∀ i : Fin ledger.length, (ledger.get i).local_id = i.val) :
    (create_prediction_tx s tf now ledger).1.status = "active" ∧
    (create_prediction_tx s tf now ledger).1.expires_at =
      (create_prediction_tx s tf now ledger).1.created_at + tf * 3600 ∧
    (create_prediction_tx s tf now ledger).1.local_id = ledger.length ∧
    (∀ q ∈ ledger, q.local_id ≠ (create_prediction_tx s tf now ledger).1.local_id) ∧
    (∀ m : ℕ, m < (create_prediction_tx s tf now ledger).1.local_id →
      ∃ q ∈ ledger, q.local_id = m) ∧
    (s.take_profit_price = none →
      (create_prediction_tx s tf now ledger).1.take_profit =
        pyInt (s.price * (105/100) * 1000000)) ∧
    (s.stop_loss_price = none →
      (create_prediction_tx s tf now ledger).1.stop_loss =
        pyInt (s.price * (95/100) * 1000000)) := by
  refine ⟨rfl, rfl, rfl, ?_, ?_, ?_, ?_⟩
  · intro q hq
    obtain ⟨i, hi⟩ := List.get_of_mem hq
    have h1 := hwf i
    rw [hi] at h1
    have h2 : q.local_id < ledger.length := by rw [h1]; exact i.isLt
    simp only [create_prediction_tx]
    omega
  · intro m hm
    simp only [create_prediction_tx] at hm
    refine ⟨ledger.get ⟨m, hm⟩, List.get_mem ledger m hm, hwf ⟨m, hm⟩⟩
  · intro h
    simp [create_prediction_tx, price_to_u64, h]
  · intro h
    simp [create_prediction_tx, price_to_u64, h]

/-- Witness for C6: creating from a signal without TP/SL on an empty
ledger, via `c6_create_prediction`. -/
theorem c6_witness :
    (create_prediction_tx ⟨"ETH", 1, 100, none, none⟩ 24 1000 []).1.status = "active" ∧
    (create_prediction_tx ⟨"ETH", 1, 100, none, none⟩ 24 1000 []).1.expires_at =
      (create_prediction_tx ⟨"ETH", 1, 100, none, none⟩ 24 1000 []).1.created_at +
        (24 : ℕ) * 3600 ∧
    (create_prediction_tx ⟨"ETH", 1, 100, none, none⟩ 24 1000 []).1.local_id = 0 ∧
    (create_prediction_tx ⟨"ETH", 1, 100, none, none⟩ 24 1000 []).1.take_profit =
      pyInt ((100 : ℚ) * (105/100) * 1000000) ∧
    (create_prediction_tx ⟨"ETH", 1, 100, none, none⟩ 24 1000 []).1.stop_loss =
      pyInt ((100 : ℚ) * (95/100) * 1000000) := by
  have h := c6_create_prediction ⟨"ETH", 1, 100, none, none⟩ 24 1000 [] (fun i => i.elim0)
  exact ⟨h.1, h.2.1, h.2.2.1, h.2.2.2.2.2.1 rfl, h.2.2.2.2.2.2 rfl⟩

/-! ## Claim C7 — terminal states are invariant under both scans -/

theorem verifyPredictionsStep_of_terminal {t : ℚ} {p : Prediction}
    (h : p.status ≠ "active") : verifyPredictionsStep t p = p := by
  simp [verifyPredictionsStep, h]

theorem processExpiredStep_of_terminal {g : String → Option ℚ} {t : ℚ}
    {p : Prediction} (h : p.status ≠ "active") : processExpiredStep g t p = p := by
  simp [processExpiredStep, h]

/-- C7: a prediction whose status is not active is left completely
unchanged (same record, same position) by any sequence of runs of the
expiry-marking scan and the price-verification scan: the four
non-active states are terminal. -/
theorem c7_terminal_invariant (ops : List ScanOp) (ledger : List Prediction)
    (i : ℕ) (p : Prediction) (hp : ledger[i]? = some p)
    (hterm : p.status ≠ "active") :
    (runScans ops ledger)[i]? = some p := by
  induction ops generalizing ledger with
  | nil => simpa [runScans] using hp
  | cons op ops ih =>
      have hstep : (runScan op ledger)[i]? = some p := by
        cases op with
        | expiry t =>
            simp [runScan, verify_predictions, List.getElem?_map, hp,
              verifyPredictionsStep_of_terminal hterm]
        | priceVerify g t =>
            simp [runScan, process_expired_predictions, List.getElem?_map, hp,
              processExpiredStep_of_terminal hterm]
      exact ih (runScan op ledger) hstep

/-- A concrete terminal (won) ledger record, used to witness C7. -/
def predWon : Prediction :=
  { asset := "SOL", direction := "LONG", entry_price := 150000000,
    take_profit := 157500000, stop_loss := 142500000, timeframe_hours := 24,
    created_at := 0, expires_at := 86400, status := "won",
    result_price := some 160000000, verified_at := some 90000, local_id := 0 }

/-- Witness for C7: an expiry scan followed by a price-verification scan
leaves a won prediction untouched, via `c7_terminal_invariant`. -/
theorem c7_witness :
    (runScans [ScanOp.expiry 100000, ScanOp.priceVerify (fun _ => none) 100000]
      [predWon])[0]? = some predWon :=
  c7_terminal_invariant _ _ 0 predWon rfl (by simp [predWon])

/-! ## Claim C8 — no reference price routes to manual verification -/

/-- C8: in the price-verification scan, an expired active prediction
whose asset has no obtainable reference price gets status
`needs_manual_verification` with `result_price` and `verified_at`
untouched (still unset), and every other position of the ledger is
still processed exactly as the scan processes it. -/
theorem c8_no_price_manual (g : String → Option ℚ) (t : ℚ)
    (ledger : List Prediction) (i : ℕ) (p : Prediction)
    (hp : ledger[i]? = some p)
    (hact : p.status = "active") (hexp : p.expires_at ≤ t)
    (hnone : g p.asset = none) :
    (process_expired_predictions g t ledger)[i]? =
      some { p with status := "needs_manual_verification" } ∧
    ({ p with status := "needs_manual_verification" } : Prediction).result_price =
      p.result_price ∧
    ({ p with status := "needs_manual_verification" } : Prediction).verified_at =
      p.verified_at ∧
    (∀ j : ℕ, j ≠ i →
      (process_expired_predictions g t ledger)[j]? =
        (ledger[j]?).map (processExpiredStep g t)) := by
  refine ⟨?_, rfl, rfl, ?_⟩
  · have hne : ¬ t < p.expires_at := not_lt.mpr hexp
    simp [process_expired_predictions, List.getElem?_map, hp,
      processExpiredStep, hact, hne, hnone]
  · intro j hj
    simp [process_expired_predictions, List.getElem?_map]

/-- A concrete expired active ledger record for an asset with no price
feed, used to witness C8. -/
def predActiveNoFeed : Prediction :=
  { asset := "VIRTUAL", direction := "LONG", entry_price := 2000000,
    take_profit := 2100000, stop_loss := 1900000, timeframe_hours := 24,
    created_at := 0, expires_at := 86400, status := "active",
    result_price := none, verified_at := none, local_id := 0 }

/-- Witness for C8: scanning a ledger holding one expired active
prediction with no obtainable price, via `c8_no_price_manual`. -/
theorem c8_witness :
    (process_expired_predictions (fun _ => none) 100000 [predActiveNoFeed])[0]? =
      some { predActiveNoFeed with status := "needs_manual_verification" } :=
  (c8_no_price_manual (fun _ => none) 100000 [predActiveNoFeed] 0 predActiveNoFeed
    rfl rfl (by norm_num [predActiveNoFeed]) rfl).1

/-! ## Claim C2 — merge confidence versus the two inputs -/

/-- Merging exactly two signals for the same symbol produces one merged
record: seeded from the first, then mutated by the second per the
agreement/conflict rule. -/
theorem merge_two_same_symbol (s1 s2 : FlowSignal) (hsym : s1.symbol = s2.symbol) :
    merge_signals [s1] [s2] =
      [{ symbol := s1.symbol, chain := s1.chain, direction := s1.direction,
         confidence := if s1.direction = s2.direction
           then min (s1.confidence + 2/10) 1
           else max (s1.confidence - 3/10) (1/10),
         sources := [s1.source, s2.source],
         net_flow_usd := s1.net_flow_usd + s2.net_flow_usd }] := by
  simp [merge_signals, mergeOne, updateFirst, hsym, List.insertionSort,
    List.orderedInsert]

/-- C2 (counterexample): the claimed bounds against the max/min of the
two inputs fail.  Same direction: first-seen confidence 0.3 merged with
a second signal of confidence 0.9 yields 0.5 < max = 0.9.  Opposite
directions (the spec's own scenario 3): 0.5 merged against 0.4 yields
0.2, which is not ≤ min(0.5, 0.4) − 0.29 = 0.11 (nor below its 0.10
floor). -/
theorem c2_counterexample :
    (merge_signals
        [⟨"SOL", "solana", "LONG", 60000, 3/10, "nansen_smart_money_netflow"⟩]
        [⟨"SOL", "base", "LONG", 50000, 9/10, "nansen_smart_money_dex"⟩]).map
      MergedSignal.confidence = [1/2] ∧
    ¬ (max (3/10 : ℚ) (9/10) ≤ 1/2) ∧
    (merge_signals
        [⟨"SOL", "solana", "LONG", 60000, 1/2, "nansen_smart_money_netflow"⟩]
        [⟨"SOL", "base", "SHORT", -50000, 2/5, "nansen_smart_money_dex"⟩]).map
      MergedSignal.confidence = [1/5] ∧
    ¬ ((1/5 : ℚ) ≤ max (min (1/2 : ℚ) (2/5) - 29/100) (1/10)) := by
  refine ⟨?_, by norm_num [max_def], ?_, by norm_num [max_def, min_def]⟩
  · rw [merge_two_same_symbol
      ⟨"SOL", "solana", "LONG", 60000, 3/10, "nansen_smart_money_netflow"⟩
      ⟨"SOL", "base", "LONG", 50000, 9/10, "nansen_smart_money_dex"⟩ rfl]
    norm_num [min_def]
  · rw [merge_two_same_symbol
      ⟨"SOL", "solana", "LONG", 60000, 1/2, "nansen_smart_money_netflow"⟩
      ⟨"SOL", "base", "SHORT", -50000, 2/5, "nansen_smart_money_dex"⟩ rfl]
    norm_num [max_def]
    decide

/-- C2 (as amended): for two signals with the same symbol, the merged
confidence is governed by the FIRST-SEEN signal's pre-merge confidence,
not by both: on direction agreement it equals
`min(first + 0.20, 1.0)`, hence is ≥ the first-seen confidence (inputs
being ≤ 1) and capped at 1.0; on conflict it equals
`max(first − 0.30, 0.10)`, hence is ≤ `max(first − 0.29, 0.10)` (a drop
of at least 0.29 from the first-seen confidence unless the 0.10 floor
engages) and never below the 0.10 floor. -/
theorem c2_merge_confidence_vs_first (s1 s2 : FlowSignal)
    (hsym : s1.symbol = s2.symbol) (hc : s1.confidence ≤ 1) :
    (s1.direction = s2.direction →
      (merge_signals [s1] [s2]).map MergedSignal.confidence =
        [min (s1.confidence + 2/10) 1] ∧
      s1.confidence ≤ min (s1.confidence + 2/10) 1 ∧
      min (s1.confidence + 2/10) 1 ≤ 1) ∧
    (s1.direction ≠ s2.direction →
      (merge_signals [s1] [s2]).map MergedSignal.confidence =
        [max (s1.confidence - 3/10) (1/10)] ∧
      max (s1.confidence - 3/10) (1/10) ≤ max (s1.confidence - 29/100) (1/10) ∧
      (1/10 : ℚ) ≤ max (s1.confidence - 3/10) (1/10)) := by
  constructor
  · intro hd
    refine ⟨?_, le_min (by linarith) hc, min_le_right _ _⟩
    rw [merge_two_same_symbol s1 s2 hsym]
    simp [hd]
  · intro hd
    refine ⟨?_, max_le_max (by linarith) le_rfl, le_max_right _ _⟩
    rw [merge_two_same_symbol s1 s2 hsym]
    simp [hd]

/-- Witness for C2: the spec's scenario 3 (LONG 0.5 netflow against
SHORT 0.4 dex on "SOL") through `c2_merge_confidence_vs_first`. -/
theorem c2_witness :
    (merge_signals
        [⟨"SOL", "solana", "LONG", 60000, 1/2, "nansen_smart_money_netflow"⟩]
        [⟨"SOL", "solana", "SHORT", -50000, 2/5, "nansen_smart_money_dex"⟩]).map
      MergedSignal.confidence = [max ((1/2 : ℚ) - 3/10) (1/10)] ∧
    max ((1/2 : ℚ) - 3/10) (1/10) ≤ max ((1/2 : ℚ) - 29/100) (1/10) ∧
    (1/10 : ℚ) ≤ max ((1/2 : ℚ) - 3/10) (1/10) :=
  (c2_merge_confidence_vs_first
    ⟨"SOL", "solana", "LONG", 60000, 1/2, "nansen_smart_money_netflow"⟩
    ⟨"SOL", "solana", "SHORT", -50000, 2/5, "nansen_smart_money_dex"⟩
    rfl (by norm_num)).2 (by simp)

/-! ## Claim C3 — netflow confidence increments -/

theorem int100_add {a b : ℚ} (ha : ∃ n : ℤ, a * 100 = (n : ℚ))
    (hb : ∃ n : ℤ, b * 100 = (n : ℚ)) : ∃ n : ℤ, (a + b) * 100 = (n : ℚ) := by
  obtain ⟨x, hx⟩ := ha
  obtain ⟨y, hy⟩ := hb
  refine ⟨x + y, ?_⟩
  have hab : (a + b) * 100 = a * 100 + b * 100 := by ring
  rw [hab, hx, hy]
  push_cast
  ring

theorem int100_ite {a b : ℚ} (c : Prop) [Decidable c]
    (ha : ∃ n : ℤ, a * 100 = (n : ℚ)) (hb : ∃ n : ℤ, b * 100 = (n : ℚ)) :
    ∃ n : ℤ, (if c then a else b) * 100 = (n : ℚ) := by
  split_ifs
  · exact ha
  · exact hb

theorem int100_min1 {a : ℚ} (ha : ∃ n : ℤ, a * 100 = (n : ℚ)) :
    ∃ n : ℤ, (min a 1) * 100 = (n : ℚ) := by
  obtain ⟨x, hx⟩ := ha
  refine ⟨min x 100, ?_⟩
  rw [min_mul_of_nonneg _ _ (by norm_num : (0:ℚ) ≤ 100), hx]
  push_cast
  norm_num

/-- Modelled from the spec's words for claim C3, for comparison only:
confidence 0.30 plus the claimed increments, where the two
sign-agreement bonuses require BOTH windows to be non-zero. -/
def netflowConfidenceClaimed (r : NetflowRecord) : ℚ :=
  let primary : ℚ :=
    if r.net_flow_24h_usd ≠ 0 then r.net_flow_24h_usd else r.net_flow_1h_usd
  min ((3/10 : ℚ)
    + (if |primary| > 50000 then 2/10 else 0)
    + (if |primary| > 200000 then 2/10 else 0)
    + (if 3 ≤ r.trader_count then 1/10 else 0)
    + (if r.net_flow_1h_usd ≠ 0 ∧ r.net_flow_24h_usd ≠ 0 ∧
          ((0 < r.net_flow_1h_usd) ↔ (0 < r.net_flow_24h_usd)) then 1/10 else 0)
    + (if r.net_flow_7d_usd ≠ 0 ∧ r.net_flow_24h_usd ≠ 0 ∧
          ((0 < r.net_flow_7d_usd) ↔ (0 < r.net_flow_24h_usd)) then 1/10 else 0)) 1

/-- C3 (counterexample): the record with 24h flow 0 and 1h flow −10,000
(primary flow falls back to the 1h flow) is emitted with confidence
0.40: the code's 1h/24h agreement test `(1h > 0) == (24h > 0) and
1h != 0` fires even though the 24h flow is zero, while the claim's
"both non-zero" reading yields 0.30. -/
theorem c3_counterexample :
    analyzeNetflowRecord "ethereum" ⟨"UNI", -10000, 0, 0, 0, 0⟩ =
      some ⟨"UNI", "ethereum", "SHORT", -10000, 2/5, "nansen_smart_money_netflow"⟩ ∧
    netflowConfidenceClaimed ⟨"UNI", -10000, 0, 0, 0, 0⟩ = 3/10 ∧
    (2/5 : ℚ) ≠ 3/10 := by
  refine ⟨?_, ?_, by norm_num⟩
  · norm_num [analyzeNetflowRecord, round2, roundHalfEven, abs_of_nonneg, abs_of_nonpos]
    decide
  · norm_num [netflowConfidenceClaimed, abs_of_nonneg, abs_of_nonpos]

/-- C3 (as amended): for every netflow record the Flow Normalizer emits
a signal for, the emitted confidence equals 0.30 plus exactly these
increments, capped at 1.0: +0.20 if |primary| > 50,000; +0.20 if
|primary| > 200,000; +0.10 if trader_count ≥ 3; +0.10 if the 1h flow is
non-zero and agrees in positivity with the 24h flow (`(1h > 0) ==
(24h > 0)`, which also fires when the 24h flow is zero and the 1h flow
negative); +0.10 likewise for the 7d flow against the 24h flow. -/
theorem c3_netflow_confidence (chain : String) (r : NetflowRecord)
    (sig : FlowSignal) (h : analyzeNetflowRecord chain r = some sig) :
    sig.confidence = min ((3/10 : ℚ)
      + (if |if r.net_flow_24h_usd ≠ 0 then r.net_flow_24h_usd else r.net_flow_1h_usd| > 50000
          then 2/10 else 0)
      + (if |if r.net_flow_24h_usd ≠ 0 then r.net_flow_24h_usd else r.net_flow_1h_usd| > 200000
          then 2/10 else 0)
      + (if 3 ≤ r.trader_count then 1/10 else 0)
      + (if ((0 < r.net_flow_1h_usd) ↔ (0 < r.net_flow_24h_usd)) ∧
            r.net_flow_1h_usd ≠ 0 then 1/10 else 0)
      + (if ((0 < r.net_flow_7d_usd) ↔ (0 < r.net_flow_24h_usd)) ∧
            r.net_flow_7d_usd ≠ 0 then 1/10 else 0)) 1 := by
  simp only [analyzeNetflowRecord] at h
  set S : ℚ := (3/10 : ℚ)
    + (if |if r.net_flow_24h_usd ≠ 0 then r.net_flow_24h_usd else r.net_flow_1h_usd| > 50000
        then 2/10 else 0)
    + (if |if r.net_flow_24h_usd ≠ 0 then r.net_flow_24h_usd else r.net_flow_1h_usd| > 200000
        then 2/10 else 0)
    + (if 3 ≤ r.trader_count then 1/10 else 0)
    + (if ((0 < r.net_flow_1h_usd) ↔ (0 < r.net_flow_24h_usd)) ∧
          r.net_flow_1h_usd ≠ 0 then 1/10 else 0)
    + (if ((0 < r.net_flow_7d_usd) ↔ (0 < r.net_flow_24h_usd)) ∧
          r.net_flow_7d_usd ≠ 0 then 1/10 else 0) with hS
  have hSint : ∃ n : ℤ, S * 100 = (n : ℚ) := by
    rw [hS]
    exact int100_add (int100_add (int100_add (int100_add (int100_add
      ⟨30, by norm_num⟩
      (int100_ite _ ⟨20, by norm_num⟩ ⟨0, by norm_num⟩))
      (int100_ite _ ⟨20, by norm_num⟩ ⟨0, by norm_num⟩))
      (int100_ite _ ⟨10, by norm_num⟩ ⟨0, by norm_num⟩))
      (int100_ite _ ⟨10, by norm_num⟩ ⟨0, by norm_num⟩))
      (int100_ite _ ⟨10, by norm_num⟩ ⟨0, by norm_num⟩)
  split_ifs at h <;>
    first
      | exact Option.noConfusion h
      | (rw [Option.some.injEq] at h
         subst h
         exact round2_eq_self (int100_min1 hSint))

/-- Witness for C3: the spec's scenario 1 record (UNI, 24h 60,000, 1h
10,000, 7d 5,000, 4 traders) through `c3_netflow_confidence`: emitted
confidence 0.3 + 0.2 + 0 + 0.1 + 0.1 + 0.1 = 0.8. -/
theorem c3_witness :
    (FlowSignal.mk "UNI" "ethereum" "LONG" 60000 (4/5)
      "nansen_smart_money_netflow").confidence =
      min ((3/10 : ℚ) + 2/10 + 0 + 1/10 + 1/10 + 1/10) 1 := by
  have heval : analyzeNetflowRecord "ethereum" ⟨"UNI", 10000, 60000, 5000, 0, 4⟩ =
      some ⟨"UNI", "ethereum", "LONG", 60000, 4/5, "nansen_smart_money_netflow"⟩ := by
    norm_num [analyzeNetflowRecord, round2, roundHalfEven, abs_of_nonneg, abs_of_nonpos]
    decide
  have h := c3_netflow_confidence "ethereum" ⟨"UNI", 10000, 60000, 5000, 0, 4⟩
    ⟨"UNI", "ethereum", "LONG", 60000, 4/5, "nansen_smart_money_netflow"⟩ heval
  rw [h]
  norm_num [abs_of_nonneg]

/-! ## Claim C4 — direction versus the sign of the emitted net flow -/

/-- A netflow-emitted signal has a nonnegative `net_flow_usd` when LONG
and a nonpositive one when SHORT (2-decimal rounding can collapse a
tiny flow to exactly 0, so the strict equivalence fails; see the C4
counterexample). -/
theorem netflow_sign_of_emitted {chain : String} {r : NetflowRecord}
    {sig : FlowSignal} (h : analyzeNetflowRecord chain r = some sig) :
    (sig.direction = "LONG" → 0 ≤ sig.net_flow_usd) ∧
    (sig.direction = "SHORT" → sig.net_flow_usd ≤ 0) := by
  simp only [analyzeNetflowRecord] at h
  set S : ℚ := (3/10 : ℚ)
    + (if |if r.net_flow_24h_usd ≠ 0 then r.net_flow_24h_usd else r.net_flow_1h_usd| > 50000
        then 2/10 else 0)
    + (if |if r.net_flow_24h_usd ≠ 0 then r.net_flow_24h_usd else r.net_flow_1h_usd| > 200000
        then 2/10 else 0)
    + (if 3 ≤ r.trader_count then 1/10 else 0)
    + (if ((0 < r.net_flow_1h_usd) ↔ (0 < r.net_flow_24h_usd)) ∧
          r.net_flow_1h_usd ≠ 0 then 1/10 else 0)
    + (if ((0 < r.net_flow_7d_usd) ↔ (0 < r.net_flow_24h_usd)) ∧
          r.net_flow_7d_usd ≠ 0 then 1/10 else 0) with hS
  split_ifs at h <;>
    first
      | exact Option.noConfusion h
      | (rw [Option.some.injEq] at h
         subst h
         dsimp only
         constructor
         · intro hdir
           first
             | exact absurd hdir (by decide)
             | exact round2_nonneg (le_of_lt (by assumption))
         · intro hdir
           first
             | exact absurd hdir (by decide)
             | exact round2_nonpos (not_lt.mp (by assumption)))

/-- A dex-emitted signal satisfies the strict equivalence: the emission
thresholds force `|buys − sells| > 1000`, which 2-decimal rounding
cannot collapse to zero. -/
theorem dex_sign_of_emitted {agg : TokenAgg} {sig : FlowSignal}
    (h : dexSignalOfAgg agg = some sig) :
    (sig.direction = "LONG" ↔ 0 < sig.net_flow_usd) := by
  simp only [dexSignalOfAgg] at h
  set R : ℚ := if agg.buys + agg.sells > 0
      then agg.buys / (agg.buys + agg.sells) else 1/2 with hR
  set CF : ℚ := if 3 ≤ agg.trades
      then min (min (|R - 5/10| * 2 + 2/10) 1 + 1/10) 1
      else min (|R - 5/10| * 2 + 2/10) 1 with hCF
  split_ifs at h <;>
    first
      | exact Option.noConfusion h
      | (rw [Option.some.injEq] at h
         subst h
         dsimp only
         rename_i hlt hr hsign
         first
           | exact iff_of_false (by decide)
               (not_lt.mpr (round2_nonpos (not_lt.mp hsign)))
           | (have htot5 : (5000:ℚ) ≤ agg.buys + agg.sells := not_lt.mp hlt
              have htot : (0:ℚ) < agg.buys + agg.sells := by linarith
              rw [hR, if_pos htot] at hr
              rcases hr with hgt | hlt2
              · have hb : (6/10 : ℚ) * (agg.buys + agg.sells) < agg.buys := by
                  rw [gt_iff_lt, lt_div_iff₀ htot] at hgt
                  linarith
                have hnet1 : (1:ℚ) ≤ agg.buys - agg.sells := by linarith
                exact iff_of_true rfl (round2_pos hnet1)
              · have hb : agg.buys < (4/10 : ℚ) * (agg.buys + agg.sells) := by
                  rw [div_lt_iff₀ htot] at hlt2
                  linarith
                exact absurd hsign (by intro hcon; linarith)))

/-- C4 (counterexample): the record with 24h flow 0.001 and market cap
0.5 passes the relative-flow emission gate (`flow_pct = 0.2 > 0.1`) and
is emitted as LONG, but its stored `net_flow_usd` is `round(0.001, 2)
= 0`, so `direction = LONG ⟺ net_flow_usd > 0` fails. -/
theorem c4_counterexample :
    analyze_netflows [("ethereum", [⟨"ABC", 0, 1/1000, 0, 1/2, 0⟩])] =
      [⟨"ABC", "ethereum", "LONG", 0, 3/10, "nansen_smart_money_netflow"⟩] ∧
    ¬ ((("LONG" : String) = "LONG") ↔ ((0:ℚ) > 0)) := by
  constructor
  · norm_num [analyze_netflows, List.flatMap_cons, List.flatMap_nil,
      List.filterMap_cons, List.filterMap_nil, analyzeNetflowRecord, round2,
      roundHalfEven, abs_of_nonneg, abs_of_nonpos, List.insertionSort,
      List.orderedInsert]
    decide
  · simp

/-- C4 (as amended): for every emitted FlowSignal, LONG forces
`net_flow_usd ≥ 0` and SHORT forces `net_flow_usd ≤ 0` (the sign of the
un-rounded flow decides the direction, and 2-decimal rounding preserves
weak sign); for Trade Aggregator signals the strict equivalence
`direction = LONG ⟺ net_flow_usd > 0` does hold. -/
theorem c4_direction_sign :
    (∀ (data : List (String × List NetflowRecord)) (sig : FlowSignal),
        sig ∈ analyze_netflows data →
        (sig.direction = "LONG" → 0 ≤ sig.net_flow_usd) ∧
        (sig.direction = "SHORT" → sig.net_flow_usd ≤ 0)) ∧
    (∀ (data : List (String × List DexTrade)) (sig : FlowSignal),
        sig ∈ analyze_dex_trades data →
        (sig.direction = "LONG" ↔ 0 < sig.net_flow_usd)) := by
  constructor
  · intro data sig hmem
    rw [analyze_netflows, List.Perm.mem_iff (List.perm_insertionSort _ _),
      List.mem_flatMap] at hmem
    obtain ⟨cf, _, hmem2⟩ := hmem
    rw [List.mem_filterMap] at hmem2
    obtain ⟨r, _, hr⟩ := hmem2
    exact netflow_sign_of_emitted hr
  · intro data sig hmem
    rw [analyze_dex_trades, List.Perm.mem_iff (List.perm_insertionSort _ _),
      List.mem_filterMap] at hmem
    obtain ⟨kv, _, hkv⟩ := hmem
    exact dex_sign_of_emitted hkv

/-- Witness for C4: the scenario-1 netflow signal (LONG, flow 60,000)
and a dex signal (LONG, buys 8,000 vs sells 2,000) through
`c4_direction_sign`. -/
theorem c4_witness :
    (0:ℚ) ≤ (FlowSignal.mk "UNI" "ethereum" "LONG" 60000 (4/5)
      "nansen_smart_money_netflow").net_flow_usd ∧
    ((FlowSignal.mk "VIRTUAL" "base" "LONG" 6000 (4/5)
      "nansen_smart_money_dex").direction = "LONG" ↔
      0 < (FlowSignal.mk "VIRTUAL" "base" "LONG" 6000 (4/5)
      "nansen_smart_money_dex").net_flow_usd) := by
  have h1 : analyze_netflows [("ethereum", [⟨"UNI", 10000, 60000, 5000, 0, 4⟩])] =
      [⟨"UNI", "ethereum", "LONG", 60000, 4/5, "nansen_smart_money_netflow"⟩] := by
    norm_num [analyze_netflows, List.flatMap_cons, List.flatMap_nil,
      List.filterMap_cons, List.filterMap_nil, analyzeNetflowRecord, round2,
      roundHalfEven, abs_of_nonneg, abs_of_nonpos, List.insertionSort,
      List.orderedInsert]
    decide
  have h2 : analyze_dex_trades
      [("base", [⟨"VIRTUAL", "USDC", 8000⟩, ⟨"USDT", "VIRTUAL", 2000⟩])] =
      [⟨"VIRTUAL", "base", "LONG", 6000, 4/5, "nansen_smart_money_dex"⟩] := by
    have hagg : aggregateDexTrades
        [("base", [⟨"VIRTUAL", "USDC", 8000⟩, ⟨"USDT", "VIRTUAL", 2000⟩])] =
        [("VIRTUAL_base", ⟨"VIRTUAL", "base", 8000, 2000, 2⟩)] := by
      have hU1 : pyUpper "VIRTUAL" = "VIRTUAL" := by decide
      have hU2 : pyUpper "USDC" = "USDC" := by decide
      have hU3 : pyUpper "USDT" = "USDT" := by decide
      norm_num [aggregateDexTrades, aggTrade, bumpAgg, updateFirst, stables,
        hU1, hU2, hU3]
      decide
    rw [analyze_dex_trades, hagg]
    norm_num [dexSignalOfAgg, round2, roundHalfEven, abs_of_nonneg, abs_of_nonpos,
      List.filterMap_cons, List.filterMap_nil, List.insertionSort,
      List.orderedInsert]
  constructor
  · exact ((c4_direction_sign.1 [("ethereum", [⟨"UNI", 10000, 60000, 5000, 0, 4⟩])]
      ⟨"UNI", "ethereum", "LONG", 60000, 4/5, "nansen_smart_money_netflow"⟩
      (by rw [h1]; exact List.mem_singleton_self _)).1) rfl
  · exact c4_direction_sign.2
      [("base", [⟨"VIRTUAL", "USDC", 8000⟩, ⟨"USDT", "VIRTUAL", 2000⟩])]
      ⟨"VIRTUAL", "base", "LONG", 6000, 4/5, "nansen_smart_money_dex"⟩
      (by rw [h2]; exact List.mem_singleton_self _)

/-! ## Claim C5 — Trade Aggregator emission and confidence -/

/-- C5 (counterexample): the bucket from a 4,901-USD buy and a 2,099-USD
sell of VIRTUAL (buy_ratio 4901/7000 ≈ 0.70996) is emitted with the
stored confidence `round(0.600285..., 2) = 0.60`, which differs from
the claim's exact value `min(|4901/7000 − 0.5|·2 + 0.2, 1) =
2101/3500 ≈ 0.600286`: the emitted field is the 2-decimal rounding of
the formula, not the formula itself. -/
theorem c5_counterexample :
    analyze_dex_trades
        [("base", [⟨"VIRTUAL", "USDC", 4901⟩, ⟨"USDT", "VIRTUAL", 2099⟩])] =
      [⟨"VIRTUAL", "base", "LONG", 2802, 3/5, "nansen_smart_money_dex"⟩] ∧
    min (|(4901:ℚ)/7000 - 5/10| * 2 + 2/10) 1 = 2101/3500 ∧
    (3/5 : ℚ) ≠ 2101/3500 := by
  refine ⟨?_, by norm_num [abs_of_nonneg, min_def], by norm_num⟩
  have hagg : aggregateDexTrades
      [("base", [⟨"VIRTUAL", "USDC", 4901⟩, ⟨"USDT", "VIRTUAL", 2099⟩])] =
      [("VIRTUAL_base", ⟨"VIRTUAL", "base", 4901, 2099, 2⟩)] := by
    have hU1 : pyUpper "VIRTUAL" = "VIRTUAL" := by decide
    have hU2 : pyUpper "USDC" = "USDC" := by decide
    have hU3 : pyUpper "USDT" = "USDT" := by decide
    norm_num [aggregateDexTrades, aggTrade, bumpAgg, updateFirst, stables,
      hU1, hU2, hU3]
    decide
  rw [analyze_dex_trades, hagg]
  norm_num [dexSignalOfAgg, round2, roundHalfEven, abs_of_nonneg, abs_of_nonpos,
    List.filterMap_cons, List.filterMap_nil, List.insertionSort,
    List.orderedInsert]
  norm_num [Int.fract]

/-- C5 (as amended): for every aggregation bucket, a signal is emitted
iff `buys + sells ≥ 5000` and `buy_ratio = buys/(buys+sells)` is > 0.6
or < 0.4; when emitted, the stored confidence equals the 2-decimal
rounding (round half to even, Python's `round(x, 2)`) of
`min(|buy_ratio − 0.5|·2 + 0.2, 1)`, with +0.10 re-capped at 1.0 first
applied when the bucket's trade count is at least 3. -/
theorem c5_dex_emission (agg : TokenAgg) :
    (dexSignalOfAgg agg ≠ none ↔
      (5000 ≤ agg.buys + agg.sells ∧
        (agg.buys / (agg.buys + agg.sells) > 6/10 ∨
         agg.buys / (agg.buys + agg.sells) < 4/10))) ∧
    (∀ sig : FlowSignal, dexSignalOfAgg agg = some sig →
      sig.confidence = round2 (if 3 ≤ agg.trades
        then min (min (|agg.buys / (agg.buys + agg.sells) - 5/10| * 2 + 2/10) 1 + 1/10) 1
        else min (|agg.buys / (agg.buys + agg.sells) - 5/10| * 2 + 2/10) 1)) := by
  by_cases hlt : agg.buys + agg.sells < 5000
  · constructor
    · simp only [dexSignalOfAgg, if_pos hlt]
      constructor
      · intro hc
        exact absurd rfl hc
      · rintro ⟨h5, _⟩
        linarith
    · intro sig h
      simp only [dexSignalOfAgg, if_pos hlt] at h
      exact Option.noConfusion h
  · have htot : (0:ℚ) < agg.buys + agg.sells := by
      have := not_lt.mp hlt
      linarith
    have hguard : (if agg.buys + agg.sells > 0
        then agg.buys / (agg.buys + agg.sells) else 1/2) =
        agg.buys / (agg.buys + agg.sells) := if_pos htot
    constructor
    · simp only [dexSignalOfAgg, if_neg hlt, hguard]
      by_cases hr : agg.buys / (agg.buys + agg.sells) > 6/10 ∨
          agg.buys / (agg.buys + agg.sells) < 4/10
      · rw [if_pos hr]
        exact iff_of_true (by simp) ⟨not_lt.mp hlt, hr⟩
      · rw [if_neg hr]
        exact iff_of_false (by simp) (fun hc => hr hc.2)
    · intro sig h
      simp only [dexSignalOfAgg, if_neg hlt, hguard] at h
      split_ifs at h <;>
        first
          | exact Option.noConfusion h
          | (rw [Option.some.injEq] at h
             subst h
             dsimp only
             first
               | rw [if_pos (by assumption : 3 ≤ agg.trades)]
               | rw [if_neg (by assumption : ¬ 3 ≤ agg.trades)])

/-- Witness for C5: the spec's scenario-2 bucket (VIRTUAL on base, buys
8,000, sells 2,000, 4 trades) through `c5_dex_emission`: emitted, and
the stored confidence is round2 of the claimed formula (0.9). -/
theorem c5_witness :
    dexSignalOfAgg ⟨"VIRTUAL", "base", 8000, 2000, 4⟩ ≠ none ∧
    (FlowSignal.mk "VIRTUAL" "base" "LONG" 6000 (9/10)
      "nansen_smart_money_dex").confidence = 9/10 := by
  have heval : dexSignalOfAgg ⟨"VIRTUAL", "base", 8000, 2000, 4⟩ =
      some ⟨"VIRTUAL", "base", "LONG", 6000, 9/10, "nansen_smart_money_dex"⟩ := by
    norm_num [dexSignalOfAgg, round2, roundHalfEven, abs_of_nonneg, abs_of_nonpos]
  constructor
  · exact (c5_dex_emission ⟨"VIRTUAL", "base", 8000, 2000, 4⟩).1.mpr
      ⟨by norm_num, Or.inl (by norm_num)⟩
  · rw [(c5_dex_emission ⟨"VIRTUAL", "base", 8000, 2000, 4⟩).2
      ⟨"VIRTUAL", "base", "LONG", 6000, 9/10, "nansen_smart_money_dex"⟩ heval]
    norm_num [round2, roundHalfEven, abs_of_nonneg, Int.fract]
